import Mathlib

/-!
Shallow embedding of `src/Runtime/RHI/Vulkan/Vulkan_IndexBuffer.cpp`
(SpartanEngine, class `RHI_IndexBuffer`): the state machine of a Vulkan
index buffer (creation with residency selection and staged upload, map,
unmap, destruction), together with theorems settling the spec claims.

Opaque device handles and host pointers are modelled as natural numbers,
with `Option` playing the role of the null sentinel.  Each operation
returns its result, the updated object state, and the list of calls it
made into the device/allocator layer (in order), so that ordering and
leak properties can be stated about the trace.
-/

set_option autoImplicit false

namespace SpartanEngine

/-- An opaque handle (buffer handle, allocation handle or host pointer). -/
abbrev Handle := Nat

/- Vulkan flag constants, values from vulkan_core.h. -/

def VK_BUFFER_USAGE_TRANSFER_SRC_BIT : Nat := 0x1

def VK_BUFFER_USAGE_TRANSFER_DST_BIT : Nat := 0x2

def VK_BUFFER_USAGE_INDEX_BUFFER_BIT : Nat := 0x40

def VK_MEMORY_PROPERTY_DEVICE_LOCAL_BIT : Nat := 0x1

def VK_MEMORY_PROPERTY_HOST_VISIBLE_BIT : Nat := 0x2

def VK_MEMORY_PROPERTY_HOST_COHERENT_BIT : Nat := 0x4

/-- Modelled from the spec: the Device Context / allocator collaborator (§6),
whose implementation (`vulkan_utility`, VMA) is not under `src/`.  Each
fallible primitive is a function whose result the embedding consumes:
`createBuffer(size, usageFlags, memoryPropertyFlags, optionalInitialData)`
yields a buffer handle and an allocation handle or fails;
`mapMemory(allocation)` yields a host pointer or fails;
`flushMappedRange(allocation, offset, size)` succeeds or fails. -/
structure RHI_Device where
  createBuffer : Nat → Nat → Nat → Option Nat → Option (Handle × Handle)
  mapMemory : Handle → Option Handle
  flushMappedRange : Handle → Nat → Nat → Bool

/-- A call made into the device/allocator layer, recorded in program order. -/
inductive Event where
  /-- `RHI_Device::QueueWaitAll` — blocking wait on every device queue. -/
  | queueWaitAll : Event
  /-- `vmaUnmapMemory(allocator, allocation)`. -/
  | vmaUnmapMemory : Option Handle → Event
  /-- `vulkan_utility::buffer::destroy(buffer)` actually freeing `buffer`. -/
  | destroyBuffer : Handle → Event
  /-- A successful `vulkan_utility::buffer::create` producing this buffer
  handle and allocation handle. -/
  | bufferCreated : Handle → Handle → Event
  /-- `vmaMapMemory(allocator, allocation, &mapped)`. -/
  | vmaMapMemory : Handle → Event
  /-- `vmaFlushAllocation(allocator, allocation, offset, size)`. -/
  | vmaFlushAllocation : Handle → Nat → Nat → Event
  /-- `command_buffer_immediate::begin(RHI_Queue_Type::Copy)`. -/
  | cmdBeginImmediate : Event
  /-- `vkCmdCopyBuffer(cmd, src, dst, 1, &region)` with `region.size`. -/
  | vkCmdCopyBuffer : Handle → Handle → Nat → Event
  /-- `command_buffer_immediate::end(RHI_Queue_Type::Copy)` — submits and
  blocks until the copy completes. -/
  | cmdEndImmediate : Event
  /-- `vulkan_utility::debug::set_name(buffer, name)`. -/
  | setDebugName : Handle → Event
  /-- `LOG_ERROR(msg)`. -/
  | logError : String → Event
  deriving DecidableEq, Repr

/-- The members of `RHI_IndexBuffer` that `_create`/`_destroy`/`Map`/`Unmap`
read or write, with the source's names. -/
structure RHI_IndexBuffer where
  m_resource : Option Handle
  m_mapped : Option Handle
  m_allocation : Option Handle
  m_is_mappable : Bool
  m_persistent_mapping : Bool
  m_object_size_gpu : Nat
  deriving DecidableEq, Repr

/-- A freshly constructed `RHI_IndexBuffer`: no resource, no allocation,
nothing mapped; the size and the persistent-mapping flag are configured
before `_create` runs. -/
def RHI_IndexBuffer.init (size : Nat) (persistent : Bool) : RHI_IndexBuffer :=
  { m_resource := none
    m_mapped := none
    m_allocation := none
    m_is_mappable := false
    m_persistent_mapping := persistent
    m_object_size_gpu := size }

/-- Modelled from the spec: the events emitted by the low-level buffer
destroy utility (`vulkan_utility::buffer::destroy`, not under `src/`).
Per §6 `destroyBuffer(bufferHandle, allocationHandle)` it frees the buffer
handle together with its backing allocation, and is a no-op on the null
sentinel (§4.4: "no-op if nothing was ever created"). -/
def buffer_destroy_events : Option Handle → List Event
  | none => []
  | some b => [Event.destroyBuffer b]

/-- `RHI_IndexBuffer::_destroy` (Vulkan_IndexBuffer.cpp lines 36-50):
waits for all queues, releases an active mapping, then destroys the buffer
and its backing allocation through the destroy utility.  The utility
receives only `m_resource` (by reference) and sets it to the null sentinel;
the `m_allocation` member is never written by `_destroy` or the utility, so
a stale allocation handle from a prior creation survives destruction. -/
def RHI_IndexBuffer._destroy (s : RHI_IndexBuffer) : RHI_IndexBuffer × List Event :=
  let unmap_events : List Event :=
    match s.m_mapped with
    | some _ => [Event.vmaUnmapMemory s.m_allocation]
    | none => []
  ({ s with m_mapped := none, m_resource := none },
    Event.queueWaitAll :: (unmap_events ++ buffer_destroy_events s.m_resource))

/-- `RHI_IndexBuffer::_create` (Vulkan_IndexBuffer.cpp lines 52-119).
`indices` is the optional source-data pointer.  Returns the success flag,
the updated state and the trace of device calls.  The staged path mirrors
the source faithfully, including the early `return false` on
destination-allocation failure that does not destroy the staging buffer. -/
def RHI_IndexBuffer._create (dev : RHI_Device) (indices : Option Nat)
    (s0 : RHI_IndexBuffer) : Bool × RHI_IndexBuffer × List Event :=
  -- Destroy previous buffer
  let destroyed := s0._destroy
  let ev0 := destroyed.2
  let s := { destroyed.1 with m_is_mappable := indices.isNone }
  match s.m_is_mappable with
  | true =>
    let flags := VK_MEMORY_PROPERTY_HOST_VISIBLE_BIT |||
      (match s.m_persistent_mapping with
        | false => VK_MEMORY_PROPERTY_HOST_COHERENT_BIT
        | true => 0)
    match dev.createBuffer s.m_object_size_gpu VK_BUFFER_USAGE_INDEX_BUFFER_BIT
        flags none with
    | none => (false, s, ev0)
    | some (buf, alloc) =>
      (true, { s with m_resource := some buf, m_allocation := some alloc },
        ev0 ++ [Event.bufferCreated buf alloc, Event.setDebugName buf])
  | false =>
    -- Create staging/source buffer pre-populated with the indices
    match dev.createBuffer s.m_object_size_gpu VK_BUFFER_USAGE_TRANSFER_SRC_BIT
        (VK_MEMORY_PROPERTY_HOST_VISIBLE_BIT ||| VK_MEMORY_PROPERTY_HOST_COHERENT_BIT)
        indices with
    | none => (false, s, ev0)
    | some (staging_buffer, allocation_staging) =>
      -- Create destination buffer
      match dev.createBuffer s.m_object_size_gpu
          (VK_BUFFER_USAGE_TRANSFER_DST_BIT ||| VK_BUFFER_USAGE_INDEX_BUFFER_BIT)
          VK_MEMORY_PROPERTY_DEVICE_LOCAL_BIT none with
      | none =>
        -- as in the source: `return false` with no destroy of the staging buffer
        (false, s, ev0 ++ [Event.bufferCreated staging_buffer allocation_staging])
      | some (buf, alloc) =>
        -- Copy staging buffer to destination buffer, then destroy staging
        (true, { s with m_resource := some buf, m_allocation := some alloc },
          ev0 ++ [Event.bufferCreated staging_buffer allocation_staging,
            Event.bufferCreated buf alloc,
            Event.cmdBeginImmediate,
            Event.vkCmdCopyBuffer staging_buffer buf s.m_object_size_gpu,
            Event.cmdEndImmediate,
            Event.destroyBuffer staging_buffer,
            Event.setDebugName buf])

/-- The outcome of `RHI_IndexBuffer::Map`: either a returned pointer
(`none` standing for C++ `nullptr`) or a violated `SP_ASSERT`. -/
inductive MapOutcome where
  | ret : Option Handle → MapOutcome
  | assertViolation : String → MapOutcome
  deriving DecidableEq, Repr

/-- `RHI_IndexBuffer::Map` (Vulkan_IndexBuffer.cpp lines 121-143). -/
def RHI_IndexBuffer.Map (dev : RHI_Device) (s : RHI_IndexBuffer) :
    MapOutcome × RHI_IndexBuffer × List Event :=
  match s.m_is_mappable with
  | false =>
    (MapOutcome.ret none, s,
      [Event.logError "Not mappable, can only be updated via staging"])
  | true =>
    match s.m_allocation with
    | none => (MapOutcome.assertViolation "m_allocation != nullptr", s, [])
    | some alloc =>
      match s.m_mapped with
      | some p => (MapOutcome.ret (some p), s, [])
      | none =>
        match dev.mapMemory alloc with
        | none =>
          (MapOutcome.ret none, s,
            [Event.vmaMapMemory alloc, Event.logError "Failed to map memory"])
        | some p =>
          (MapOutcome.ret (some p), { s with m_mapped := some p },
            [Event.vmaMapMemory alloc])

/-- `RHI_IndexBuffer::Unmap` (Vulkan_IndexBuffer.cpp lines 145-177). -/
def RHI_IndexBuffer.Unmap (dev : RHI_Device) (s : RHI_IndexBuffer) :
    Bool × RHI_IndexBuffer × List Event :=
  match s.m_is_mappable with
  | false =>
    (false, s, [Event.logError "Not mappable, can only be updated via staging"])
  | true =>
    match s.m_allocation with
    | none => (false, s, [Event.logError "Invalid allocation"])
    | some alloc =>
      match s.m_persistent_mapping with
      | true =>
        match dev.flushMappedRange alloc 0 s.m_object_size_gpu with
        | true => (true, s, [Event.vmaFlushAllocation alloc 0 s.m_object_size_gpu])
        | false =>
          (false, s,
            [Event.vmaFlushAllocation alloc 0 s.m_object_size_gpu,
              Event.logError "Failed to flush memory"])
      | false =>
        match s.m_mapped with
        | some _ => (true, { s with m_mapped := none }, [Event.vmaUnmapMemory (some alloc)])
        | none => (true, s, [])

/-- Whether every fallible sub-step of `_create` succeeds for a given device,
source-data pointer and pre-call state: the single host-visible allocation on
the mappable path, and both the staging and the destination allocation on the
staged path.  The immediate copy is modelled per the spec interface (§6) as
blocking and infallible, so it imposes no condition. -/
def substepsOk (dev : RHI_Device) (indices : Option Nat) (s : RHI_IndexBuffer) : Prop :=
  match indices with
  | none =>
    (dev.createBuffer s.m_object_size_gpu VK_BUFFER_USAGE_INDEX_BUFFER_BIT
      (VK_MEMORY_PROPERTY_HOST_VISIBLE_BIT |||
        (match s.m_persistent_mapping with
          | false => VK_MEMORY_PROPERTY_HOST_COHERENT_BIT
          | true => 0)) none).isSome = true
  | some _ =>
    (dev.createBuffer s.m_object_size_gpu VK_BUFFER_USAGE_TRANSFER_SRC_BIT
      (VK_MEMORY_PROPERTY_HOST_VISIBLE_BIT ||| VK_MEMORY_PROPERTY_HOST_COHERENT_BIT)
      indices).isSome = true ∧
    (dev.createBuffer s.m_object_size_gpu
      (VK_BUFFER_USAGE_TRANSFER_DST_BIT ||| VK_BUFFER_USAGE_INDEX_BUFFER_BIT)
      VK_MEMORY_PROPERTY_DEVICE_LOCAL_BIT none).isSome = true

instance substepsOk_decidable (dev : RHI_Device) (indices : Option Nat)
    (s : RHI_IndexBuffer) : Decidable (substepsOk dev indices s) := by
  unfold substepsOk
  cases indices <;> infer_instance

/-- A device on which every primitive succeeds; `createBuffer` hands out
buffer handle 3 and allocation handle 8, `mapMemory` hands out pointer 100. -/
def dev_ok : RHI_Device :=
  { createBuffer := fun _ _ _ _ => some (3, 8)
    mapMemory := fun _ => some 100
    flushMappedRange := fun _ _ _ => true }

/-- A device on which the transfer-source (staging) allocation succeeds with
buffer handle 7 and allocation handle 9, while every other buffer allocation
(in particular the device-local destination allocation) fails. -/
def dev_dest_alloc_fails : RHI_Device :=
  { createBuffer := fun _ usage _ _ =>
      match usage == VK_BUFFER_USAGE_TRANSFER_SRC_BIT with
      | true => some (7, 9)
      | false => none
    mapMemory := fun _ => some 100
    flushMappedRange := fun _ _ _ => true }

/-- A device on which every buffer allocation fails. -/
def dev_alloc_fails : RHI_Device :=
  { createBuffer := fun _ _ _ _ => none
    mapMemory := fun _ => some 100
    flushMappedRange := fun _ _ _ => true }

/-- A device on which `mapMemory` fails. -/
def dev_map_fails : RHI_Device :=
  { createBuffer := fun _ _ _ _ => some (3, 8)
    mapMemory := fun _ => none
    flushMappedRange := fun _ _ _ => true }

/-- A device on which `flushMappedRange` fails. -/
def dev_flush_fails : RHI_Device :=
  { createBuffer := fun _ _ _ _ => some (3, 8)
    mapMemory := fun _ => some 100
    flushMappedRange := fun _ _ _ => false }

/-- A mappable, successfully created, currently unmapped buffer. -/
def buf_mappable : RHI_IndexBuffer :=
  { m_resource := some 3
    m_mapped := none
    m_allocation := some 8
    m_is_mappable := true
    m_persistent_mapping := false
    m_object_size_gpu := 1024 }

/-- A mappable buffer with an active mapping at pointer 100. -/
def buf_mapped : RHI_IndexBuffer :=
  { buf_mappable with m_mapped := some 100 }

/-- A persistently-mapped buffer with an active mapping at pointer 100. -/
def buf_persistent : RHI_IndexBuffer :=
  { buf_mapped with m_persistent_mapping := true }

/-- A non-mappable (staged) buffer, as produced by a staged create. -/
def buf_staged : RHI_IndexBuffer :=
  { buf_mappable with m_is_mappable := false }

/-- A mappable buffer whose allocation handle is the null sentinel, as an
entity looks before any successful create. -/
def buf_no_alloc : RHI_IndexBuffer :=
  { buf_mappable with m_resource := none, m_allocation := none }

/-- C1: evaluation of the staged-create ordering hazard at a concrete failing
input.  On a device where the staging allocation succeeds (buffer handle 7,
allocation handle 9) and the destination allocation fails, `_create` reports
failure but its device-call trace contains no destruction of staging buffer 7:
the staging resource is leaked, contrary to the claim that it is destroyed
before the create call reports failure. -/
theorem C1_staging_buffer_leaked_on_dest_alloc_failure :
    (RHI_IndexBuffer._create dev_dest_alloc_fails (some 42)
      (RHI_IndexBuffer.init 1024 false)).1 = false ∧
    Event.bufferCreated 7 9 ∈
      (RHI_IndexBuffer._create dev_dest_alloc_fails (some 42)
        (RHI_IndexBuffer.init 1024 false)).2.2 ∧
    Event.destroyBuffer 7 ∉
      (RHI_IndexBuffer._create dev_dest_alloc_fails (some 42)
        (RHI_IndexBuffer.init 1024 false)).2.2 := by
  decide

/-- C3: every `_destroy` run begins with the blocking wait on all device
queues: the wait is the first device call, strictly before the release of an
active mapping and before the buffer and its allocation are freed (both of
which, when they happen, occur in the remainder of the trace, which contains
no further wait). -/
theorem C3_destroy_waits_before_freeing (s : RHI_IndexBuffer) :
    (s._destroy.2).head? = some Event.queueWaitAll ∧
    (∀ p, s.m_mapped = some p →
      Event.vmaUnmapMemory s.m_allocation ∈ (s._destroy.2).tail) ∧
    (∀ b, s.m_resource = some b →
      Event.destroyBuffer b ∈ (s._destroy.2).tail) ∧
    Event.queueWaitAll ∉ (s._destroy.2).tail := by
  unfold RHI_IndexBuffer._destroy buffer_destroy_events
  cases hm : s.m_mapped <;> cases hr : s.m_resource <;> simp_all

/-- C3 witness: on a created buffer with an active mapping, the tail of the
destroy trace (after the leading queue wait) contains both the unmap and the
buffer destruction. -/
theorem C3_destroy_waits_before_freeing_witness :
    Event.vmaUnmapMemory buf_mapped.m_allocation ∈ (buf_mapped._destroy.2).tail ∧
    Event.destroyBuffer 3 ∈ (buf_mapped._destroy.2).tail :=
  ⟨(C3_destroy_waits_before_freeing buf_mapped).2.1 100 rfl,
   (C3_destroy_waits_before_freeing buf_mapped).2.2.1 3 rfl⟩

/-- C4: `_destroy` on a never-created entity is a state no-op whose only
device call is the queue wait; a second `_destroy` right after a first one is
likewise a state no-op with only the queue wait; and every `_create` run
starts by performing exactly the `_destroy` of the previous state (its trace
is a prefix of the create trace). -/
theorem C4_destroy_idempotent :
    (∀ size persistent,
      ((RHI_IndexBuffer.init size persistent)._destroy).1 =
        RHI_IndexBuffer.init size persistent ∧
      ((RHI_IndexBuffer.init size persistent)._destroy).2 = [Event.queueWaitAll]) ∧
    (∀ s : RHI_IndexBuffer,
      ((s._destroy.1)._destroy).1 = s._destroy.1 ∧
      ((s._destroy.1)._destroy).2 = [Event.queueWaitAll]) ∧
    (∀ (dev : RHI_Device) (indices : Option Nat) (s0 : RHI_IndexBuffer), ∃ tr,
      (RHI_IndexBuffer._create dev indices s0).2.2 = s0._destroy.2 ++ tr) := by
  refine ⟨fun size persistent => ⟨rfl, rfl⟩, fun s => ⟨rfl, rfl⟩, ?_⟩
  intro dev indices s0
  unfold RHI_IndexBuffer._create
  cases indices <;>
    simp only [Option.isNone_none, Option.isNone_some] <;>
    (repeat' split) <;>
    first
      | exact ⟨[], (List.append_nil _).symm⟩
      | exact ⟨_, rfl⟩

/-- C5: the state produced by `_create` has `m_is_mappable = true` exactly
when no source data was supplied (regardless of whether creation succeeded),
and neither `Map` nor `Unmap` ever changes `m_is_mappable` — it is fixed at
creation time. -/
theorem C5_mappable_iff_no_source_data (dev : RHI_Device) (s : RHI_IndexBuffer)
    (h : 0 < s.m_object_size_gpu) :
    (RHI_IndexBuffer._create dev none s).2.1.m_is_mappable = true ∧
    (∀ d : Nat,
      (RHI_IndexBuffer._create dev (some d) s).2.1.m_is_mappable = false) ∧
    (∀ s' : RHI_IndexBuffer,
      (RHI_IndexBuffer.Map dev s').2.1.m_is_mappable = s'.m_is_mappable ∧
      (RHI_IndexBuffer.Unmap dev s').2.1.m_is_mappable = s'.m_is_mappable) := by
  refine ⟨?_, fun d => ?_, fun s' => ⟨?_, ?_⟩⟩
  · unfold RHI_IndexBuffer._create
    simp only [Option.isNone_none]
    repeat' split
    all_goals rfl
  · unfold RHI_IndexBuffer._create
    simp only [Option.isNone_some]
    repeat' split
    all_goals rfl
  · unfold RHI_IndexBuffer.Map
    repeat' split
    all_goals rfl
  · unfold RHI_IndexBuffer.Unmap
    repeat' split
    all_goals rfl

/-- C5 witness: at size 1024, creating with no source data yields a mappable
buffer and creating with source data yields a non-mappable one. -/
theorem C5_mappable_iff_no_source_data_witness :
    0 < (RHI_IndexBuffer.init 1024 false).m_object_size_gpu ∧
    (RHI_IndexBuffer._create dev_ok none
      (RHI_IndexBuffer.init 1024 false)).2.1.m_is_mappable = true ∧
    (RHI_IndexBuffer._create dev_ok (some 42)
      (RHI_IndexBuffer.init 1024 false)).2.1.m_is_mappable = false :=
  ⟨by decide,
   (C5_mappable_iff_no_source_data dev_ok _ (by decide)).1,
   (C5_mappable_iff_no_source_data dev_ok _ (by decide)).2.1 42⟩

/-- C2 counterexample: the claim's "non-partially-initialized state holding
no valid resource handle" fails on the code.  Create a buffer successfully
(allocation handle 8), then re-create on a device where every allocation
fails: the re-create reports failure and leaves `m_resource = none`, but the
`m_allocation` member still holds the stale handle 8 from the prior creation
— neither `_destroy` (which never writes `m_allocation`) nor the failure
paths clear it, so the entity retains a freed allocation handle. -/
theorem C2_stale_allocation_after_failed_recreate :
    (RHI_IndexBuffer._create dev_alloc_fails (some 42)
      (RHI_IndexBuffer._create dev_ok none
        (RHI_IndexBuffer.init 1024 false)).2.1).1 = false ∧
    (RHI_IndexBuffer._create dev_alloc_fails (some 42)
      (RHI_IndexBuffer._create dev_ok none
        (RHI_IndexBuffer.init 1024 false)).2.1).2.1.m_resource = none ∧
    (RHI_IndexBuffer._create dev_alloc_fails (some 42)
      (RHI_IndexBuffer._create dev_ok none
        (RHI_IndexBuffer.init 1024 false)).2.1).2.1.m_allocation = some 8 := by
  decide

/-- C2 (amended): `_create` returns success exactly when every fallible
sub-step succeeds (each buffer allocation; the immediate copy is modelled
per the spec interface as blocking and infallible), and on any failure the
entity holds no buffer handle and no active mapping and is safely
destroyable (a subsequent `_destroy` is a state no-op) — but the
`m_allocation` member is not cleared: it retains whatever value it held
before the call, stale if a prior creation had succeeded. -/
theorem C2_create_success_iff_substeps (dev : RHI_Device) (indices : Option Nat)
    (s : RHI_IndexBuffer) :
    ((RHI_IndexBuffer._create dev indices s).1 = true ↔ substepsOk dev indices s) ∧
    ((RHI_IndexBuffer._create dev indices s).1 = false →
      (RHI_IndexBuffer._create dev indices s).2.1.m_resource = none ∧
      (RHI_IndexBuffer._create dev indices s).2.1.m_mapped = none ∧
      (RHI_IndexBuffer._create dev indices s).2.1.m_allocation = s.m_allocation ∧
      ((RHI_IndexBuffer._create dev indices s).2.1._destroy).1 =
        (RHI_IndexBuffer._create dev indices s).2.1) := by
  unfold RHI_IndexBuffer._create substepsOk RHI_IndexBuffer._destroy
  cases indices <;>
    simp only [Option.isNone_none, Option.isNone_some] <;>
    (repeat' split) <;>
    simp_all

/-- C2 witness: under a fully succeeding device creation succeeds, and at the
concrete failing input (destination allocation fails on the staged create
from a fresh entity) creation fails leaving no buffer handle, nothing
mapped, the entity's prior (null) allocation member, and a destroyable
state. -/
theorem C2_create_success_iff_substeps_witness :
    (RHI_IndexBuffer._create dev_ok (some 42)
      (RHI_IndexBuffer.init 1024 false)).1 = true ∧
    ((RHI_IndexBuffer._create dev_dest_alloc_fails (some 42)
        (RHI_IndexBuffer.init 1024 false)).2.1.m_resource = none ∧
      (RHI_IndexBuffer._create dev_dest_alloc_fails (some 42)
        (RHI_IndexBuffer.init 1024 false)).2.1.m_mapped = none ∧
      (RHI_IndexBuffer._create dev_dest_alloc_fails (some 42)
        (RHI_IndexBuffer.init 1024 false)).2.1.m_allocation =
        (RHI_IndexBuffer.init 1024 false).m_allocation ∧
      ((RHI_IndexBuffer._create dev_dest_alloc_fails (some 42)
          (RHI_IndexBuffer.init 1024 false)).2.1._destroy).1 =
        (RHI_IndexBuffer._create dev_dest_alloc_fails (some 42)
          (RHI_IndexBuffer.init 1024 false)).2.1) :=
  ⟨(C2_create_success_iff_substeps dev_ok (some 42)
      (RHI_IndexBuffer.init 1024 false)).1.mpr (by decide),
   (C2_create_success_iff_substeps dev_dest_alloc_fails (some 42)
      (RHI_IndexBuffer.init 1024 false)).2 (by decide)⟩

/-- C6: every failing `Map` call returns null, logs an error and leaves the
state unchanged: on a non-mappable resource it returns null with only the
error log, and when the map primitive fails on first map it returns null,
logs the failure and does not mark the resource mapped. -/
theorem C6_map_failure_leaves_state_unchanged (dev : RHI_Device)
    (s : RHI_IndexBuffer) :
    (s.m_is_mappable = false →
      RHI_IndexBuffer.Map dev s =
        (MapOutcome.ret none, s,
          [Event.logError "Not mappable, can only be updated via staging"])) ∧
    (∀ a, s.m_is_mappable = true → s.m_allocation = some a →
      s.m_mapped = none → dev.mapMemory a = none →
      RHI_IndexBuffer.Map dev s =
        (MapOutcome.ret none, s,
          [Event.vmaMapMemory a, Event.logError "Failed to map memory"])) := by
  constructor
  · intro h
    unfold RHI_IndexBuffer.Map
    simp [h]
  · intro a h1 h2 h3 h4
    unfold RHI_IndexBuffer.Map
    simp [h1, h2, h3, h4]

/-- C6 witness: the non-mappable branch on a staged buffer, and the
map-primitive-failure branch on a mappable buffer under a device whose
`mapMemory` fails. -/
theorem C6_map_failure_leaves_state_unchanged_witness :
    RHI_IndexBuffer.Map dev_map_fails buf_staged =
      (MapOutcome.ret none, buf_staged,
        [Event.logError "Not mappable, can only be updated via staging"]) ∧
    RHI_IndexBuffer.Map dev_map_fails buf_mappable =
      (MapOutcome.ret none, buf_mappable,
        [Event.vmaMapMemory 8, Event.logError "Failed to map memory"]) :=
  ⟨(C6_map_failure_leaves_state_unchanged dev_map_fails buf_staged).1 rfl,
   (C6_map_failure_leaves_state_unchanged dev_map_fails buf_mappable).2 8
     rfl rfl rfl rfl⟩

/-- C7: `Map` is idempotent: whenever a `Map` call returns a (non-null)
pointer `p`, a second `Map` call on the resulting state returns the identical
pointer `p`, leaves the state unchanged, and makes no device call at all (in
particular it does not invoke the map primitive again). -/
theorem C7_map_idempotent (dev : RHI_Device) (s : RHI_IndexBuffer) (p : Handle)
    (hmap : (RHI_IndexBuffer.Map dev s).1 = MapOutcome.ret (some p)) :
    (RHI_IndexBuffer.Map dev (RHI_IndexBuffer.Map dev s).2.1).1 =
      MapOutcome.ret (some p) ∧
    (RHI_IndexBuffer.Map dev (RHI_IndexBuffer.Map dev s).2.1).2.1 =
      (RHI_IndexBuffer.Map dev s).2.1 ∧
    (RHI_IndexBuffer.Map dev (RHI_IndexBuffer.Map dev s).2.1).2.2 = [] := by
  unfold RHI_IndexBuffer.Map at hmap ⊢
  cases h1 : s.m_is_mappable
  · simp [h1] at hmap
  · cases h2 : s.m_allocation with
    | none => simp [h1, h2] at hmap
    | some a =>
      cases h3 : s.m_mapped with
      | some q =>
        simp only [h1, h2, h3] at hmap ⊢
        simp_all
      | none =>
        cases h4 : dev.mapMemory a with
        | none => simp [h1, h2, h3, h4] at hmap
        | some q =>
          simp only [h1, h2, h3, h4] at hmap ⊢
          simp_all

/-- C7 witness: on a mappable buffer under a fully succeeding device, the
first `Map` returns pointer 100 and the second `Map` returns it again. -/
theorem C7_map_idempotent_witness :
    (RHI_IndexBuffer.Map dev_ok
      (RHI_IndexBuffer.Map dev_ok buf_mappable).2.1).1 =
      MapOutcome.ret (some 100) ∧
    (RHI_IndexBuffer.Map dev_ok
      (RHI_IndexBuffer.Map dev_ok buf_mappable).2.1).2.2 = [] :=
  ⟨(C7_map_idempotent dev_ok buf_mappable 100 (by decide)).1,
   (C7_map_idempotent dev_ok buf_mappable 100 (by decide)).2.2⟩

/-- C8: on a mappable resource with `m_persistent_mapping = true` and a valid
allocation, `Unmap` leaves the state (in particular the mapped pointer)
unchanged, issues a flush of the full buffer range (offset 0, length
`m_object_size_gpu`), returns exactly the flush primitive's result, logs an
error when the flush fails, and never calls the unmap primitive. -/
theorem C8_unmap_persistent_flushes_full_range (dev : RHI_Device)
    (s : RHI_IndexBuffer) (a : Handle) (hm : s.m_is_mappable = true)
    (ha : s.m_allocation = some a) (hp : s.m_persistent_mapping = true) :
    (RHI_IndexBuffer.Unmap dev s).2.1 = s ∧
    (RHI_IndexBuffer.Unmap dev s).2.1.m_mapped = s.m_mapped ∧
    Event.vmaFlushAllocation a 0 s.m_object_size_gpu ∈
      (RHI_IndexBuffer.Unmap dev s).2.2 ∧
    (RHI_IndexBuffer.Unmap dev s).1 = dev.flushMappedRange a 0 s.m_object_size_gpu ∧
    (dev.flushMappedRange a 0 s.m_object_size_gpu = false →
      Event.logError "Failed to flush memory" ∈ (RHI_IndexBuffer.Unmap dev s).2.2) ∧
    (∀ a', Event.vmaUnmapMemory a' ∉ (RHI_IndexBuffer.Unmap dev s).2.2) := by
  unfold RHI_IndexBuffer.Unmap
  cases hf : dev.flushMappedRange a 0 s.m_object_size_gpu <;>
    simp_all

/-- C8 witness: on a persistently mapped buffer, `Unmap` under a succeeding
device keeps the state and returns true, and under a device whose flush
fails it returns false and logs the flush failure. -/
theorem C8_unmap_persistent_flushes_full_range_witness :
    (RHI_IndexBuffer.Unmap dev_ok buf_persistent).2.1 = buf_persistent ∧
    Event.vmaFlushAllocation 8 0 buf_persistent.m_object_size_gpu ∈
      (RHI_IndexBuffer.Unmap dev_ok buf_persistent).2.2 ∧
    (RHI_IndexBuffer.Unmap dev_ok buf_persistent).1 = true ∧
    (RHI_IndexBuffer.Unmap dev_flush_fails buf_persistent).1 = false ∧
    Event.logError "Failed to flush memory" ∈
      (RHI_IndexBuffer.Unmap dev_flush_fails buf_persistent).2.2 :=
  ⟨(C8_unmap_persistent_flushes_full_range dev_ok buf_persistent 8
      rfl rfl rfl).1,
   (C8_unmap_persistent_flushes_full_range dev_ok buf_persistent 8
      rfl rfl rfl).2.2.1,
   ((C8_unmap_persistent_flushes_full_range dev_ok buf_persistent 8
      rfl rfl rfl).2.2.2.1).trans rfl,
   ((C8_unmap_persistent_flushes_full_range dev_flush_fails buf_persistent 8
      rfl rfl rfl).2.2.2.1).trans rfl,
   (C8_unmap_persistent_flushes_full_range dev_flush_fails buf_persistent 8
      rfl rfl rfl).2.2.2.2.1 rfl⟩

/-- C9: `Unmap` fails with an error log and an unchanged state when the
resource is not mappable or has no allocation; otherwise, with persistent
mapping off, an active mapping is released through the unmap primitive and
the cached pointer cleared, and `Unmap` with nothing mapped is a no-op
success that makes no device call. -/
theorem C9_unmap_errors_and_release (dev : RHI_Device) (s : RHI_IndexBuffer) :
    (s.m_is_mappable = false →
      RHI_IndexBuffer.Unmap dev s =
        (false, s, [Event.logError "Not mappable, can only be updated via staging"])) ∧
    (s.m_is_mappable = true → s.m_allocation = none →
      RHI_IndexBuffer.Unmap dev s =
        (false, s, [Event.logError "Invalid allocation"])) ∧
    (∀ a p, s.m_is_mappable = true → s.m_allocation = some a →
      s.m_persistent_mapping = false → s.m_mapped = some p →
      RHI_IndexBuffer.Unmap dev s =
        (true, { s with m_mapped := none }, [Event.vmaUnmapMemory (some a)])) ∧
    (∀ a, s.m_is_mappable = true → s.m_allocation = some a →
      s.m_persistent_mapping = false → s.m_mapped = none →
      RHI_IndexBuffer.Unmap dev s = (true, s, [])) := by
  refine ⟨fun h => ?_, fun h1 h2 => ?_, fun a p h1 h2 h3 h4 => ?_,
    fun a h1 h2 h3 h4 => ?_⟩ <;>
  · unfold RHI_IndexBuffer.Unmap
    simp_all

/-- C9 witness: all four branches at concrete states — a staged buffer, a
mappable buffer without allocation, a mapped buffer (release), and an
unmapped mappable buffer (no-op success). -/
theorem C9_unmap_errors_and_release_witness :
    RHI_IndexBuffer.Unmap dev_ok buf_staged =
      (false, buf_staged,
        [Event.logError "Not mappable, can only be updated via staging"]) ∧
    RHI_IndexBuffer.Unmap dev_ok buf_no_alloc =
      (false, buf_no_alloc, [Event.logError "Invalid allocation"]) ∧
    RHI_IndexBuffer.Unmap dev_ok buf_mapped =
      (true, { buf_mapped with m_mapped := none },
        [Event.vmaUnmapMemory (some 8)]) ∧
    RHI_IndexBuffer.Unmap dev_ok buf_mappable = (true, buf_mappable, []) :=
  ⟨(C9_unmap_errors_and_release dev_ok buf_staged).1 rfl,
   (C9_unmap_errors_and_release dev_ok buf_no_alloc).2.1 rfl rfl,
   (C9_unmap_errors_and_release dev_ok buf_mapped).2.2.1 8 100 rfl rfl rfl rfl,
   (C9_unmap_errors_and_release dev_ok buf_mappable).2.2.2 8 rfl rfl rfl rfl⟩

/-- C10: `Map` on a mappable resource whose allocation is the null sentinel
hits the `SP_ASSERT(m_allocation != nullptr)` assertion instead of returning
any pointer (unlike `Unmap`, which returns false gracefully on the same
state), and after any successful `_create` the allocation is non-null, so the
assertion is unreachable under that precondition. -/
theorem C10_map_asserts_on_missing_allocation (dev : RHI_Device)
    (s : RHI_IndexBuffer) (hm : s.m_is_mappable = true)
    (ha : s.m_allocation = none) :
    (RHI_IndexBuffer.Map dev s).1 =
      MapOutcome.assertViolation "m_allocation != nullptr" ∧
    (∀ p, (RHI_IndexBuffer.Map dev s).1 ≠ MapOutcome.ret p) ∧
    (RHI_IndexBuffer.Unmap dev s).1 = false ∧
    (∀ (dev' : RHI_Device) (indices : Option Nat) (s0 : RHI_IndexBuffer),
      (RHI_IndexBuffer._create dev' indices s0).1 = true →
      (RHI_IndexBuffer._create dev' indices s0).2.1.m_allocation ≠ none) := by
  refine ⟨?_, ?_, ?_, ?_⟩
  · unfold RHI_IndexBuffer.Map
    simp [hm, ha]
  · unfold RHI_IndexBuffer.Map
    simp [hm, ha]
  · unfold RHI_IndexBuffer.Unmap
    simp [hm, ha]
  · intro dev' indices s0 hsucc
    unfold RHI_IndexBuffer._create at hsucc ⊢
    cases indices <;>
      simp only [Option.isNone_none, Option.isNone_some] at hsucc ⊢ <;>
      (repeat' split at hsucc) <;>
      simp_all

/-- C10 witness: on a mappable buffer with no allocation, `Map` violates the
allocation assertion while `Unmap` returns false, and a successful create
leaves a non-null allocation. -/
theorem C10_map_asserts_on_missing_allocation_witness :
    (RHI_IndexBuffer.Map dev_ok buf_no_alloc).1 =
      MapOutcome.assertViolation "m_allocation != nullptr" ∧
    (RHI_IndexBuffer.Unmap dev_ok buf_no_alloc).1 = false ∧
    (RHI_IndexBuffer._create dev_ok none
      (RHI_IndexBuffer.init 1024 false)).2.1.m_allocation ≠ none :=
  ⟨(C10_map_asserts_on_missing_allocation dev_ok buf_no_alloc rfl rfl).1,
   (C10_map_asserts_on_missing_allocation dev_ok buf_no_alloc rfl rfl).2.2.1,
   (C10_map_asserts_on_missing_allocation dev_ok buf_no_alloc rfl rfl).2.2.2
     dev_ok none (RHI_IndexBuffer.init 1024 false) (by decide)⟩

end SpartanEngine
